import Mathlib

/-!
Verification of the synchronization core of a socketcluster-based Gun worker
(file src/GunSocketClusterWorker.ts). The definitions below are a shallow
embedding of the functions of that file: JS objects become association
lists, JS `null` and `undefined` become `Option.none`, NaN produced by
`parseInt` becomes `Option.none`, exceptions become `Except`, and the
side-effecting `exchange.publish` and `socket.emit` calls become explicit
lists or options of published messages in the return value.
-/

namespace GunWorker

/-- A soul is the unique string identifier of one graph node. -/
abbrev Soul := String

/-- A graph node, modelled as an association list of attribute/value pairs.
Its contents are opaque to the worker, which only passes nodes around. -/
abbrev GunNode := List (String × String)

/-- A graph diff or put payload: a mapping from soul to node delta, modelled
as an association list; a `none` delta models a JS `null` entry. -/
abbrev GunGraphData := List (Soul × Option GunNode)

/-- A Gun wire message.  `msgId` embeds the JS field written `'#'`,
`replyTo` embeds the field written `'@'`; `none` models an absent
(or `null`) field. -/
structure GunMsg where
  msgId : Option String
  replyTo : Option String
  put : Option GunGraphData
  err : Option String
  ok : Option Bool
deriving DecidableEq, Repr

/-- One message published on one channel (an `exchange.publish` or
`socket.emit` observed effect). -/
structure Published where
  channel : String
  message : GunMsg
deriving DecidableEq, Repr

/-- JS template-literal rendering of a possibly absent string:
`undefined` prints as the text "undefined". -/
def jsStr (s : Option String) : String := s.getD "undefined"

/-- The per-soul envelope published by `publishDiff` for one soul of the
diff: channel `gun/nodes/<soul>`, id `<originId>/<soul>`, put `{soul: nd}`. -/
def soulPublish (originId : String) (soul : Soul) (nd : GunNode) : Published :=
  ⟨"gun/nodes/" ++ soul,
   { msgId := some (originId ++ "/" ++ soul), replyTo := none,
     put := some [(soul, some nd)], err := none, ok := none }⟩

/-- The `for (const soul in diff)` loop of `publishDiff` (source lines
282-299): souls that are the empty string (falsy in JS) are skipped, souls
whose delta is `null` are skipped, every other soul gets one per-soul
envelope on its `gun/nodes/<soul>` channel. -/
def publishDiffLoop (originId : String) : GunGraphData → List Published
  | [] => []
  | (soul, nodeDiff) :: rest =>
    if soul = "" then publishDiffLoop originId rest
    else
      match nodeDiff with
      | none => publishDiffLoop originId rest
      | some nd => soulPublish originId soul nd :: publishDiffLoop originId rest

/-- `publishDiff` (source lines 272-302): if the message carries no `put`
it publishes nothing; otherwise it publishes the per-soul envelopes and
then the whole message, unmodified, on the `gun/put/diff` channel. -/
def publishDiff (msg : GunMsg) : List Published :=
  match msg.put with
  | none => []
  | some diff => publishDiffLoop (jsStr msg.msgId) diff ++ [⟨"gun/put/diff", msg⟩]

/-- The wrapped adapter `put` of `wrapAdapter` (source lines 64-84):
`adapterDiff` is the diff returned by the underlying adapter (`none`
models `null`/`undefined`), `freshId` models the `pseudoRandomText()`
id.  Returns the diff passed through together with the list of messages
published; an absent or empty diff publishes nothing. -/
def wrapAdapterPut (adapterDiff : Option GunGraphData) (freshId : String) :
    Option GunGraphData × List Published :=
  match adapterDiff with
  | none => (none, [])
  | some diff =>
    if diff.isEmpty then (some diff, [])
    else
      (some diff,
       publishDiff
         { msgId := some freshId, replyTo := none, put := some diff,
           err := none, ok := none })

/-- The characters of a `gun/nodes/<soul>` channel name. -/
theorem gunNodes_data (s : String) :
    ("gun/nodes/" ++ s).data =
      'g' :: 'u' :: 'n' :: '/' :: 'n' :: 'o' :: 'd' :: 'e' :: 's' :: '/' :: s.data := by
  rw [String.data_append]
  rfl

/-- A per-soul channel name is never the diff-broadcast channel name. -/
theorem gunNodes_ne_diffChannel (s : String) : "gun/nodes/" ++ s ≠ "gun/put/diff" := by
  intro h
  have hd := congrArg String.data h
  rw [gunNodes_data] at hd
  have hr : "gun/put/diff".data =
      ['g', 'u', 'n', '/', 'p', 'u', 't', '/', 'd', 'i', 'f', 'f'] := rfl
  rw [hr] at hd
  simp only [List.cons.injEq] at hd
  exact absurd hd.2.2.2.2.1 (by decide)

/-- A per-soul channel name is never the write channel name. -/
theorem gunNodes_ne_putChannel (s : String) : "gun/nodes/" ++ s ≠ "gun/put" := by
  intro h
  have hd := congrArg String.data h
  rw [gunNodes_data] at hd
  have hr : "gun/put".data = ['g', 'u', 'n', '/', 'p', 'u', 't'] := rfl
  rw [hr] at hd
  simp only [List.cons.injEq] at hd
  exact absurd hd.2.2.2.2.1 (by decide)

/-- A per-soul channel name is never the read channel name. -/
theorem gunNodes_ne_getChannel (s : String) : "gun/nodes/" ++ s ≠ "gun/get" := by
  intro h
  have hd := congrArg String.data h
  rw [gunNodes_data] at hd
  have hr : "gun/get".data = ['g', 'u', 'n', '/', 'g', 'e', 't'] := rfl
  rw [hr] at hd
  simp only [List.cons.injEq] at hd
  exact absurd hd.2.2.2.2.1 (by decide)

/-- Distinct souls give distinct per-soul channel names. -/
theorem gunNodes_inj {s t : String} (h : "gun/nodes/" ++ s = "gun/nodes/" ++ t) :
    s = t := by
  have hd := congrArg String.data h
  rw [String.data_append, String.data_append] at hd
  exact String.ext (List.append_cancel_left hd)

/-- The per-soul loop never publishes on the diff-broadcast channel. -/
theorem publishDiffLoop_no_broadcast (originId : String) (diff : GunGraphData) :
    (publishDiffLoop originId diff).countP
      (fun p => p.channel == "gun/put/diff") = 0 := by
  induction diff with
  | nil => rfl
  | cons e rest ih =>
    obtain ⟨soul, nd⟩ := e
    by_cases h1 : soul = ""
    · simpa [publishDiffLoop, h1] using ih
    · cases nd with
      | none => simpa [publishDiffLoop, h1] using ih
      | some n =>
        have h3 : (("gun/nodes/" ++ soul : String) == "gun/put/diff") = false :=
          beq_eq_false_iff_ne.mpr (gunNodes_ne_diffChannel soul)
        simp [publishDiffLoop, h1, List.countP_cons, soulPublish, h3, ih]

/-- On the channel of a non-empty soul `s`, the per-soul loop publishes one
message per diff entry carrying `s` with a non-null delta. -/
theorem publishDiffLoop_countP (originId s : String) (hs : s ≠ "")
    (diff : GunGraphData) :
    (publishDiffLoop originId diff).countP
        (fun p => p.channel == "gun/nodes/" ++ s) =
      diff.countP (fun e => e.1 == s && e.2.isSome) := by
  induction diff with
  | nil => rfl
  | cons e rest ih =>
    obtain ⟨soul, nd⟩ := e
    by_cases h1 : soul = ""
    · subst h1
      simp [publishDiffLoop, List.countP_cons, ih, Ne.symm hs]
    · cases nd with
      | none => simp [publishDiffLoop, h1, List.countP_cons, ih]
      | some n =>
        by_cases h2 : soul = s
        · subst h2
          simp [publishDiffLoop, h1, List.countP_cons, soulPublish, ih]
        · have h3 : (("gun/nodes/" ++ soul : String) == "gun/nodes/" ++ s) = false :=
            beq_eq_false_iff_ne.mpr (fun hh => h2 (gunNodes_inj hh))
          have h4 : ((soul : String) == s) = false := beq_eq_false_iff_ne.mpr h2
          simp [publishDiffLoop, h1, List.countP_cons, soulPublish, h3, h4, ih]

/-- Every non-empty soul of the diff with a non-null delta has its
per-soul envelope in the loop output. -/
theorem publishDiffLoop_mem (originId : String) {diff : GunGraphData}
    {s : Soul} {nd : GunNode} (h : (s, some nd) ∈ diff) (hs : s ≠ "") :
    soulPublish originId s nd ∈ publishDiffLoop originId diff := by
  induction diff with
  | nil => cases h
  | cons e rest ih =>
    cases h with
    | head => simp [publishDiffLoop, hs]
    | tail _ hmem =>
      obtain ⟨soul, nd'⟩ := e
      by_cases h1 : soul = ""
      · simpa [publishDiffLoop, h1] using ih hmem
      · cases nd' with
        | none => simpa [publishDiffLoop, h1] using ih hmem
        | some n =>
          simp only [publishDiffLoop, h1, if_false, List.mem_cons]
          exact Or.inr (ih hmem)

/-- Every message the loop outputs is the per-soul envelope of some
non-empty soul of the diff with a non-null delta. -/
theorem publishDiffLoop_shape (originId : String) (diff : GunGraphData) :
    ∀ p ∈ publishDiffLoop originId diff,
      ∃ s nd, (s, some nd) ∈ diff ∧ s ≠ "" ∧ p = soulPublish originId s nd := by
  induction diff with
  | nil => intro p hp; cases hp
  | cons e rest ih =>
    obtain ⟨soul, nd'⟩ := e
    intro p hp
    by_cases h1 : soul = ""
    · simp only [publishDiffLoop, h1, if_true] at hp
      obtain ⟨s, nd, hmem, hne, heq⟩ := ih p hp
      exact ⟨s, nd, List.mem_cons_of_mem _ hmem, hne, heq⟩
    · cases nd' with
      | none =>
        simp only [publishDiffLoop, h1, if_false] at hp
        obtain ⟨s, nd, hmem, hne, heq⟩ := ih p hp
        exact ⟨s, nd, List.mem_cons_of_mem _ hmem, hne, heq⟩
      | some n =>
        simp only [publishDiffLoop, h1, if_false, List.mem_cons] at hp
        cases hp with
        | inl hept => exact ⟨soul, n, List.mem_cons_self _ _, h1, hept⟩
        | inr hmem =>
          obtain ⟨s, nd, hmem2, hne, heq⟩ := ih p hmem
          exact ⟨s, nd, List.mem_cons_of_mem _ hmem2, hne, heq⟩

/-- C1 counterexample: the claim says every soul of the diff with a
non-null delta gets exactly one per-soul message, but the source skips the
empty-string soul (falsy in JS, line 283).  For the non-empty diff
carrying only the soul `""` with a non-null delta, the whole output is the
single broadcast message: no message is published on the channel of soul
`""`, where the claim requires exactly one. -/
theorem publishDiff_empty_soul_cex :
    publishDiff
        { msgId := some "m1", replyTo := none,
          put := some [("", some [("name", "Alice")])], err := none, ok := none } =
      [⟨"gun/put/diff",
        { msgId := some "m1", replyTo := none,
          put := some [("", some [("name", "Alice")])], err := none, ok := none }⟩] ∧
    (publishDiff
        { msgId := some "m1", replyTo := none,
          put := some [("", some [("name", "Alice")])], err := none, ok := none }).countP
        (fun p => p.channel == "gun/nodes/" ++ "") = 0 :=
  ⟨rfl, rfl⟩

/-- C1 (amended): for every invocation of `publishDiff` on a message
carrying diff `d`: exactly one message is published to the diff-broadcast
channel `gun/put/diff`; it is the last message published and carries the
full diff unmodified; for every non-empty soul `s`, the number of messages
published to the per-soul channel `gun/nodes/<s>` equals the number of
entries of `d` for `s` whose delta is non-null (so one per such soul, and
none for souls with a null delta); the per-soul envelope
`{id: <originId>/<s>, put: {s: delta}}` of every non-empty soul with a
non-null delta is published; and every published message is one of these.
The amendment: souls that are the empty string are also skipped, not only
souls with a null delta. -/
theorem publishDiff_fanout (msg : GunMsg) (diff : GunGraphData)
    (hput : msg.put = some diff) :
    ((publishDiff msg).countP (fun p => p.channel == "gun/put/diff") = 1)
    ∧ (publishDiff msg).getLast? = some ⟨"gun/put/diff", msg⟩
    ∧ (∀ s : Soul, s ≠ "" →
        (publishDiff msg).countP (fun p => p.channel == "gun/nodes/" ++ s) =
          diff.countP (fun e => e.1 == s && e.2.isSome))
    ∧ (∀ s nd, (s, some nd) ∈ diff → s ≠ "" →
        soulPublish (jsStr msg.msgId) s nd ∈ publishDiff msg)
    ∧ (∀ p ∈ publishDiff msg, p = ⟨"gun/put/diff", msg⟩ ∨
        ∃ s nd, (s, some nd) ∈ diff ∧ s ≠ "" ∧
          p = soulPublish (jsStr msg.msgId) s nd) := by
  have hpd : publishDiff msg =
      publishDiffLoop (jsStr msg.msgId) diff ++ [⟨"gun/put/diff", msg⟩] := by
    simp [publishDiff, hput]
  refine ⟨?_, ?_, ?_, ?_, ?_⟩
  · rw [hpd, List.countP_append, publishDiffLoop_no_broadcast]
    simp
  · rw [hpd]
    exact List.getLast?_concat _
  · intro s hs
    rw [hpd, List.countP_append, publishDiffLoop_countP _ _ hs]
    have hne : (("gun/put/diff" : String) == "gun/nodes/" ++ s) = false :=
      beq_eq_false_iff_ne.mpr (fun hh => gunNodes_ne_diffChannel s hh.symm)
    simp [hne]
  · intro s nd hmem hs
    rw [hpd]
    exact List.mem_append_left _ (publishDiffLoop_mem _ hmem hs)
  · intro p hp
    rw [hpd] at hp
    rcases List.mem_append.mp hp with h | h
    · obtain ⟨s, nd, hmem, hne, heq⟩ := publishDiffLoop_shape _ _ p h
      exact Or.inr ⟨s, nd, hmem, hne, heq⟩
    · simp only [List.mem_singleton] at h
      exact Or.inl h

/-- Concrete two-soul diff used to witness the C1 fan-out theorem. -/
def wC1Diff : GunGraphData :=
  [("soulA", some [("name", "Alice")]), ("soulB", some [("age", "7")])]

/-- Concrete diff message used to witness the C1 fan-out theorem. -/
def wC1Msg : GunMsg :=
  { msgId := some "origin1", replyTo := none, put := some wC1Diff,
    err := none, ok := none }

/-- Witness for the C1 fan-out theorem at a concrete two-soul diff. -/
theorem publishDiff_fanout_witness :
    wC1Msg.put = some wC1Diff ∧
    (((publishDiff wC1Msg).countP (fun p => p.channel == "gun/put/diff") = 1)
     ∧ (publishDiff wC1Msg).getLast? = some ⟨"gun/put/diff", wC1Msg⟩
     ∧ (∀ s : Soul, s ≠ "" →
         (publishDiff wC1Msg).countP (fun p => p.channel == "gun/nodes/" ++ s) =
           wC1Diff.countP (fun e => e.1 == s && e.2.isSome))
     ∧ (∀ s nd, (s, some nd) ∈ wC1Diff → s ≠ "" →
         soulPublish (jsStr wC1Msg.msgId) s nd ∈ publishDiff wC1Msg)
     ∧ (∀ p ∈ publishDiff wC1Msg, p = ⟨"gun/put/diff", wC1Msg⟩ ∨
         ∃ s nd, (s, some nd) ∈ wC1Diff ∧ s ≠ "" ∧
           p = soulPublish (jsStr wC1Msg.msgId) s nd)) :=
  ⟨rfl, publishDiff_fanout wC1Msg wC1Diff rfl⟩

/-- C2: for every write whose resulting diff is empty (`some []`, an empty
JS object) or null (`none`), the wrapped adapter publishes nothing: no
message appears on any per-soul channel or on the diff-broadcast channel
(source lines 70-73 return before `publishDiff` is invoked). -/
theorem wrapAdapterPut_empty_silent (adapterDiff : Option GunGraphData)
    (freshId : String) (h : adapterDiff = none ∨ adapterDiff = some []) :
    (wrapAdapterPut adapterDiff freshId).2 = [] := by
  rcases h with h | h <;> subst h <;> rfl

/-- Witness for the C2 theorem at the empty diff. -/
theorem wrapAdapterPut_empty_silent_witness :
    ((some [] : Option GunGraphData) = none ∨
      (some [] : Option GunGraphData) = some []) ∧
    (wrapAdapterPut (some []) "id0").2 = [] :=
  ⟨Or.inr rfl, wrapAdapterPut_empty_silent (some []) "id0" (Or.inr rfl)⟩

/-- The auth token attached to a socket by `setAuthToken` (source lines
171-174).  `timestamp = none` models the JS value NaN, which `parseInt`
returns on a non-numeric string. -/
structure AuthToken where
  pub : String
  timestamp : Option Int
deriving DecidableEq, Repr

/-- `isAdmin` (source lines 25-29): the socket carries an auth token whose
public key equals the configured `GUN_OWNER_PUB` environment variable
(`none` models an unset variable, to which no string is `===`). -/
def isAdmin (authToken : Option AuthToken) (ownerPub : Option String) : Bool :=
  match authToken, ownerPub with
  | some t, some k => t.pub == k
  | _, _ => false

/-- A middleware decision: `next()` or `next(new Error(reason))`. -/
inductive Decision where
  | allowed
  | denied (reason : String)
deriving DecidableEq, Repr

/-- The gating portion of `subscribeMiddleware` (source lines 184-199):
the channels `gun/put` and `gun/get` are denied to non-admin sockets;
every other channel reaches `next()` with no error. The source denial text
uses a contraction; it is paraphrased here without the apostrophe. -/
def subscribeMiddlewareDecision (channel : String) (authToken : Option AuthToken)
    (ownerPub : Option String) : Decision :=
  if (channel = "gun/put" ∨ channel = "gun/get") ∧ ¬ isAdmin authToken ownerPub then
    .denied ("You are not allowed to subscribe to " ++ channel)
  else
    .allowed

/-- C3: `subscribeMiddleware` denies the write-request channel `gun/put`
and the read-request channel `gun/get` to every connection that is not the
owner (in particular unauthenticated ones), allows them to the owner
identity, allows every per-soul channel `gun/nodes/<soul>`
unconditionally, and allows every other channel name unconditionally;
being the owner means carrying a token whose public key equals the
configured owner key, and a connection with no token is never the owner. -/
theorem subscribe_gate (authToken : Option AuthToken) (ownerPub : Option String) :
    (isAdmin authToken ownerPub = false →
        subscribeMiddlewareDecision "gun/put" authToken ownerPub =
          .denied "You are not allowed to subscribe to gun/put"
      ∧ subscribeMiddlewareDecision "gun/get" authToken ownerPub =
          .denied "You are not allowed to subscribe to gun/get")
    ∧ (isAdmin authToken ownerPub = true →
        subscribeMiddlewareDecision "gun/put" authToken ownerPub = .allowed
      ∧ subscribeMiddlewareDecision "gun/get" authToken ownerPub = .allowed)
    ∧ (∀ s : Soul,
        subscribeMiddlewareDecision ("gun/nodes/" ++ s) authToken ownerPub = .allowed)
    ∧ (∀ ch : String, ch ≠ "gun/put" → ch ≠ "gun/get" →
        subscribeMiddlewareDecision ch authToken ownerPub = .allowed)
    ∧ (∀ t k, authToken = some t → ownerPub = some k →
        (isAdmin authToken ownerPub = true ↔ t.pub = k))
    ∧ (authToken = none → isAdmin authToken ownerPub = false) := by
  refine ⟨?_, ?_, ?_, ?_, ?_, ?_⟩
  · intro h
    constructor <;> simp [subscribeMiddlewareDecision, h]
  · intro h
    constructor <;> simp [subscribeMiddlewareDecision, h]
  · intro s
    have h1 := gunNodes_ne_putChannel s
    have h2 := gunNodes_ne_getChannel s
    simp [subscribeMiddlewareDecision, h1, h2]
  · intro ch h1 h2
    simp [subscribeMiddlewareDecision, h1, h2]
  · intro t k ht hk
    subst ht; subst hk
    simp [isAdmin]
  · intro h
    subst h
    rfl

/-- Witness for the C3 subscribe-gate theorem at concrete connections. -/
theorem subscribe_gate_witness :
    subscribeMiddlewareDecision "gun/put" none (some "ownerK") =
      .denied "You are not allowed to subscribe to gun/put"
    ∧ subscribeMiddlewareDecision "gun/get" (some ⟨"other", some 1⟩) (some "ownerK") =
      .denied "You are not allowed to subscribe to gun/get"
    ∧ subscribeMiddlewareDecision "gun/put" (some ⟨"ownerK", some 1⟩) (some "ownerK") =
      .allowed
    ∧ subscribeMiddlewareDecision ("gun/nodes/" ++ "soulA") none (some "ownerK") =
      .allowed
    ∧ subscribeMiddlewareDecision "other/chan" none (some "ownerK") = .allowed :=
  ⟨((subscribe_gate none (some "ownerK")).1 rfl).1,
   ((subscribe_gate (some ⟨"other", some 1⟩) (some "ownerK")).1 rfl).2,
   ((subscribe_gate (some ⟨"ownerK", some 1⟩) (some "ownerK")).2.1 rfl).1,
   (subscribe_gate none (some "ownerK")).2.2.1 "soulA",
   (subscribe_gate none (some "ownerK")).2.2.2.1 "other/chan" (by decide) (by decide)⟩

/-- `processPut` (source lines 36-58): builds the acknowledgment for a put
message.  `freshId` models the generated `pseudoRandomText()` id;
`adapterResult` is the outcome of `adapter.put`, consulted only when the
message carries a put payload; a thrown adapter error (`Except.error`)
yields the generic "Error saving" acknowledgment. -/
def processPut (msg : GunMsg) (freshId : String)
    (adapterResult : Except String Unit) : GunMsg :=
  match msg.put with
  | some _ =>
    match adapterResult with
    | .ok _ =>
      { msgId := some freshId, replyTo := msg.msgId, put := none,
        err := none, ok := some true }
    | .error _ =>
      { msgId := some freshId, replyTo := msg.msgId, put := none,
        err := some "Error saving", ok := some false }
  | none =>
    { msgId := some freshId, replyTo := msg.msgId, put := none,
      err := none, ok := some true }

/-- The observable outcome of `publishInMiddleware`: the middleware
decision, the put payload handed to the adapter via `processPut` (`none`
when no adapter call occurs), and the acknowledgment emitted on the reply
channel (`none` when nothing is emitted). -/
structure PublishInEffects where
  decision : Decision
  adapterPut : Option GunGraphData
  emitted : Option Published
deriving DecidableEq, Repr

/-- `publishInMiddleware` (source lines 238-265): every channel other than
`gun/put` is allowed only to the owner and denied otherwise, with no
further processing either way; on `gun/put` every connection passes, and a
message carrying a put payload is handed to `processPut`, whose
acknowledgment is emitted on the reply channel `gun/@<original id>`. -/
def publishInMiddleware (channel : String) (authToken : Option AuthToken)
    (ownerPub : Option String) (reqData : Option GunMsg) (freshId : String)
    (adapterResult : Except String Unit) : PublishInEffects :=
  if channel ≠ "gun/put" then
    if isAdmin authToken ownerPub then ⟨.allowed, none, none⟩
    else ⟨.denied "You are not allowed to write to this channel", none, none⟩
  else
    match reqData with
    | none => ⟨.allowed, none, none⟩
    | some msg =>
      match msg.put with
      | none => ⟨.allowed, none, none⟩
      | some p =>
        ⟨.allowed, some p,
         some ⟨"gun/@" ++ jsStr msg.msgId, processPut msg freshId adapterResult⟩⟩

/-- C4: for every publish request on a channel other than `gun/put`, the
publish is allowed only to the owner identity; every other connection is
denied and, on denial, no adapter call occurs and nothing is emitted
(indeed nothing further happens even for the owner on such channels);
on the write channel `gun/put` every connection is allowed, authenticated
or not. -/
theorem publish_gate (channel : String) (authToken : Option AuthToken)
    (ownerPub : Option String) (reqData : Option GunMsg) (freshId : String)
    (adapterResult : Except String Unit) :
    (channel ≠ "gun/put" → isAdmin authToken ownerPub = false →
      publishInMiddleware channel authToken ownerPub reqData freshId adapterResult =
        ⟨.denied "You are not allowed to write to this channel", none, none⟩)
    ∧ (channel ≠ "gun/put" → isAdmin authToken ownerPub = true →
      publishInMiddleware channel authToken ownerPub reqData freshId adapterResult =
        ⟨.allowed, none, none⟩)
    ∧ (publishInMiddleware "gun/put" authToken ownerPub reqData freshId
        adapterResult).decision = .allowed := by
  refine ⟨?_, ?_, ?_⟩
  · intro hch hadm
    simp [publishInMiddleware, hch, hadm]
  · intro hch hadm
    simp [publishInMiddleware, hch, hadm]
  · cases reqData with
    | none => rfl
    | some msg =>
      cases hput : msg.put with
      | none => simp [publishInMiddleware, hput]
      | some p => simp [publishInMiddleware, hput]

/-- Witness for the C4 publish-gate theorem at concrete requests. -/
theorem publish_gate_witness :
    publishInMiddleware "gun/get" none (some "ownerK") none "f1" (.ok ()) =
      ⟨.denied "You are not allowed to write to this channel", none, none⟩
    ∧ publishInMiddleware "gun/nodes/soulA" (some ⟨"ownerK", some 1⟩)
        (some "ownerK") none "f1" (.ok ()) = ⟨.allowed, none, none⟩
    ∧ (publishInMiddleware "gun/put" none (some "ownerK") none "f1"
        (.ok ())).decision = .allowed :=
  ⟨(publish_gate "gun/get" none (some "ownerK") none "f1" (.ok ())).1
      (by decide) rfl,
   (publish_gate "gun/nodes/soulA" (some ⟨"ownerK", some 1⟩) (some "ownerK")
      none "f1" (.ok ())).2.1 (by decide) rfl,
   (publish_gate "gun/put" none (some "ownerK") none "f1" (.ok ())).2.2⟩

/-- C5: for every `gun/put` publish whose message carries a put payload,
an acknowledgment with the freshly generated id and `replyTo` equal to the
original id is emitted on the reply channel `gun/@<original id>`; it
carries a null `err` and `ok = true` when the adapter write succeeds, and
`err = "Error saving"`, `ok = false` when the adapter write fails, the
underlying adapter error `e` never appearing in the acknowledgment. -/
theorem write_ack (authToken : Option AuthToken) (ownerPub : Option String)
    (msg : GunMsg) (p : GunGraphData) (freshId : String)
    (hput : msg.put = some p) :
    (publishInMiddleware "gun/put" authToken ownerPub (some msg) freshId (.ok ()) =
      ⟨.allowed, some p,
       some ⟨"gun/@" ++ jsStr msg.msgId,
         { msgId := some freshId, replyTo := msg.msgId, put := none,
           err := none, ok := some true }⟩⟩)
    ∧ ∀ e : String,
      publishInMiddleware "gun/put" authToken ownerPub (some msg) freshId
          (.error e) =
        ⟨.allowed, some p,
         some ⟨"gun/@" ++ jsStr msg.msgId,
           { msgId := some freshId, replyTo := msg.msgId, put := none,
             err := some "Error saving", ok := some false }⟩⟩ := by
  constructor
  · simp [publishInMiddleware, processPut, hput]
  · intro e
    simp [publishInMiddleware, processPut, hput]

/-- Witness for the C5 acknowledgment theorem at a concrete put message. -/
theorem write_ack_witness :
    ({ msgId := some "orig7", replyTo := none,
       put := some [("soulA", some [("x", "1")])], err := none,
       ok := none } : GunMsg).put = some [("soulA", some [("x", "1")])]
    ∧ ((publishInMiddleware "gun/put" none none
        (some { msgId := some "orig7", replyTo := none,
                put := some [("soulA", some [("x", "1")])], err := none,
                ok := none }) "fresh9" (.ok ()) =
      ⟨.allowed, some [("soulA", some [("x", "1")])],
       some ⟨"gun/@" ++ jsStr (some "orig7"),
         { msgId := some "fresh9", replyTo := some "orig7", put := none,
           err := none, ok := some true }⟩⟩)
    ∧ ∀ e : String,
      publishInMiddleware "gun/put" none none
          (some { msgId := some "orig7", replyTo := none,
                  put := some [("soulA", some [("x", "1")])], err := none,
                  ok := none }) "fresh9" (.error e) =
        ⟨.allowed, some [("soulA", some [("x", "1")])],
         some ⟨"gun/@" ++ jsStr (some "orig7"),
           { msgId := some "fresh9", replyTo := some "orig7", put := none,
             err := some "Error saving", ok := some false }⟩⟩) :=
  ⟨rfl,
   write_ack none none
     { msgId := some "orig7", replyTo := none,
       put := some [("soulA", some [("x", "1")])], err := none, ok := none }
     [("soulA", some [("x", "1")])] "fresh9" rfl⟩

/-- Splitting a character list at every slash, preserving empty pieces,
as the JS `split('/')` does. -/
def splitOnSlash : List Char → List (List Char)
  | [] => [[]]
  | c :: rest =>
    let r := splitOnSlash rest
    if c = '/' then [] :: r
    else
      match r with
      | [] => [[c]]
      | hd :: tl => (c :: hd) :: tl

/-- The JS `m.split('/')`: the list of slash-separated pieces of `m`,
never empty, with empty pieces preserved. -/
def jsSplitSlash (m : String) : List String :=
  (splitOnSlash m.data).map String.mk

/-- Decimal value of a digit list (most significant first). -/
def digitsVal : List Char → Nat → Nat
  | [], acc => acc
  | c :: cs, acc => digitsVal cs (acc * 10 + (c.toNat - 48))

/-- `parseInt(s, 10)` on the characters of a string: skip leading
whitespace, accept an optional sign, then read the longest leading run of
digits; no digits means NaN, modelled as `none`. -/
def jsParseIntChars (cs : List Char) : Option Int :=
  match cs with
  | '-' :: rest =>
    let ds := rest.takeWhile Char.isDigit
    if ds.isEmpty then none else some (-(Int.ofNat (digitsVal ds 0)))
  | '+' :: rest =>
    let ds := rest.takeWhile Char.isDigit
    if ds.isEmpty then none else some (Int.ofNat (digitsVal ds 0))
  | _ =>
    let ds := cs.takeWhile Char.isDigit
    if ds.isEmpty then none else some (Int.ofNat (digitsVal ds 0))

/-- The JS `parseInt(s, 10)` applied to a possibly undefined string:
`parseInt(undefined, 10)` is NaN, modelled as `none`. -/
def jsParseInt (s : Option String) : Option Int :=
  match s with
  | none => none
  | some str => jsParseIntChars (str.data.dropWhile Char.isWhitespace)

/-- The login proof `{m, s}` sent by the client (source lines 132-135). -/
structure Proof where
  m : String
  s : String
deriving DecidableEq, Repr

/-- How `authenticateLogin` answers the `respond` callback:
`respondMsg` models `respond(null, text)` (a non-error rejection),
`respondErr` models `respond(new Error(text))`, and `success` models the
bare `respond()` after `setAuthToken`. -/
inductive AuthResponse where
  | respondMsg (msg : String)
  | respondErr (err : String)
  | success
deriving DecidableEq, Repr

/-- The observable outcome of one `authenticateLogin` call: the response,
whether the signature verifier was invoked, and the auth token attached by
`setAuthToken` (`none` when no token was attached by this call). -/
structure AuthOutcome where
  response : AuthResponse
  verifierInvoked : Bool
  newToken : Option AuthToken
deriving DecidableEq, Repr

/-- The checks of `authenticateLogin` performed after the clock-drift
check (source lines 163-178): the embedded socket id must be non-empty
and equal to the id of the presenting socket (the source denial text uses
a contraction, paraphrased here without the apostrophe); only then is the
verifier invoked, `Except.error` modelling a verifier throw, which the
source catches and answers like a failed verification. -/
def authAfterDrift (socketId pub embeddedId : String) (timestamp : Option Int)
    (verifyResult : Except Unit Bool) : AuthOutcome :=
  if embeddedId = "" ∨ embeddedId ≠ socketId then
    ⟨.respondErr "Socket ID does not match", false, none⟩
  else
    match verifyResult with
    | .ok true => ⟨.success, true, some ⟨pub, timestamp⟩⟩
    | .ok false => ⟨.respondMsg "Invalid login", true, none⟩
    | .error _ => ⟨.respondMsg "Invalid login", true, none⟩

/-- `authenticateLogin` (source lines 128-182): rejects a request with a
missing public key or proof; splits the proof message at slashes, the
first piece being the embedded socket id and the second (possibly absent)
the timestamp string; parses the timestamp with `parseInt`; rejects with
the clock-drift error when the timestamp parsed to a number whose distance
from `now` exceeds `maxDrift` (a NaN timestamp, `none`, passes this check,
as NaN compares false in JS); then applies the socket-id and signature
checks.  `pub = ""` models a missing/falsy public key, `proof = none` a
missing proof. -/
def authenticateLogin (socketId pub : String) (proof : Option Proof)
    (now maxDrift : Int) (verifyResult : Except Unit Bool) : AuthOutcome :=
  match proof with
  | none => ⟨.respondMsg "Missing login info", false, none⟩
  | some pr =>
    if pub = "" then ⟨.respondMsg "Missing login info", false, none⟩
    else
      let parts := jsSplitSlash pr.m
      let embeddedId := parts.headD ""
      match jsParseInt (parts.get? 1) with
      | some t =>
        if |now - t| > maxDrift then
          ⟨.respondErr "Exceeded max clock drift", false, none⟩
        else authAfterDrift socketId pub embeddedId (some t) verifyResult
      | none => authAfterDrift socketId pub embeddedId none verifyResult

/-- C6: for every login request carrying credentials whose proof message
parses to a timestamp `t` with `|now - t| > maxDrift`, authentication
fails with the clock-drift error regardless of the verifier outcome `vr`,
and the signature verifier is not invoked. -/
theorem clock_drift_rejected (socketId pub m sg : String) (t now maxDrift : Int)
    (vr : Except Unit Bool) (hpub : pub ≠ "")
    (ht : jsParseInt ((jsSplitSlash m).get? 1) = some t)
    (hdrift : |now - t| > maxDrift) :
    authenticateLogin socketId pub (some ⟨m, sg⟩) now maxDrift vr =
      ⟨.respondErr "Exceeded max clock drift", false, none⟩ := by
  have ht2 : jsParseInt (jsSplitSlash m)[1]? = some t := by
    rw [← List.get?_eq_getElem?]
    exact ht
  simp [authenticateLogin, hpub, ht2, hdrift]

/-- Witness for the C6 clock-drift theorem: a matching socket id and a
valid signature, yet a 1999000 ms drift; the verifier is not invoked. -/
theorem clock_drift_rejected_witness :
    ("pubK" ≠ "") ∧
    jsParseInt ((jsSplitSlash "sockA/1000").get? 1) = some 1000 ∧
    |(2000000 : Int) - 1000| > 300000 ∧
    authenticateLogin "sockA" "pubK" (some ⟨"sockA/1000", "sig"⟩) 2000000 300000
        (.ok true) =
      ⟨.respondErr "Exceeded max clock drift", false, none⟩ :=
  ⟨by decide, rfl, by decide,
   clock_drift_rejected "sockA" "pubK" "sockA/1000" "sig" 1000 2000000 300000
     (.ok true) (by decide) rfl (by decide)⟩

/-- C7: for every login request carrying credentials whose proof message
parses to a timestamp within the drift bound (the checks preceding the
socket-id check in the validation pipeline of the source), if the embedded
socket id differs from the id of the presenting socket then authentication
fails with the socket-mismatch error for every verifier outcome `vr` (in
particular even when the signature is valid), and the verifier is not
invoked. -/
theorem socket_mismatch_rejected (socketId pub m sg : String)
    (t now maxDrift : Int) (vr : Except Unit Bool) (hpub : pub ≠ "")
    (ht : jsParseInt ((jsSplitSlash m).get? 1) = some t)
    (hdrift : ¬(|now - t| > maxDrift))
    (hmm : (jsSplitSlash m).headD "" ≠ socketId) :
    authenticateLogin socketId pub (some ⟨m, sg⟩) now maxDrift vr =
      ⟨.respondErr "Socket ID does not match", false, none⟩ := by
  have ht2 : jsParseInt (jsSplitSlash m)[1]? = some t := by
    rw [← List.get?_eq_getElem?]
    exact ht
  have hmm2 : ((jsSplitSlash m).head?).getD "" ≠ socketId := by
    rw [← List.headD_eq_head?_getD]
    exact hmm
  simp [authenticateLogin, hpub, ht2, hdrift, authAfterDrift, hmm2]

/-- Witness for the C7 socket-mismatch theorem: a proof bound to socket
`sockB` presented on socket `sockA` with zero drift and a valid signature
is rejected with the mismatch error and the verifier is not invoked. -/
theorem socket_mismatch_rejected_witness :
    ("pubK" ≠ "") ∧
    jsParseInt ((jsSplitSlash "sockB/1000").get? 1) = some 1000 ∧
    ¬(|(1000 : Int) - 1000| > 300000) ∧
    (jsSplitSlash "sockB/1000").headD "" ≠ "sockA" ∧
    authenticateLogin "sockA" "pubK" (some ⟨"sockB/1000", "sig"⟩) 1000 300000
        (.ok true) =
      ⟨.respondErr "Socket ID does not match", false, none⟩ :=
  ⟨by decide, rfl, by decide, by decide,
   socket_mismatch_rejected "sockA" "pubK" "sockB/1000" "sig" 1000 1000 300000
     (.ok true) (by decide) rfl (by decide) (by decide)⟩

/-- C8 (code bug): the claim requires a MalformedProof failure when the
timestamp part of the proof message is not a valid integer, but the source
has no such branch: `parseInt` yields NaN, the comparison `NaN > maxDrift`
is false, so the clock-drift check passes vacuously, and a login whose
proof message is `sock1/x` with a matching socket id and a valid signature
succeeds, attaching a token whose timestamp is NaN. -/
theorem malformed_timestamp_accepted :
    authenticateLogin "sock1" "pubK" (some ⟨"sock1/x", "sig"⟩) 1700000000000
        300000 (.ok true) =
      ⟨.success, true, some ⟨"pubK", none⟩⟩ := by
  decide

/-- The operations a connection can perform against the worker after the
handshake: a login attempt (source lines 116-120) and the two
middleware-gated requests. -/
inductive ConnOp where
  | login (pub : String) (proof : Option Proof) (now maxDrift : Int)
      (verifyResult : Except Unit Bool)
  | subscribe (channel : String)
  | publishIn (channel : String) (reqData : Option GunMsg) (freshId : String)
      (adapterResult : Except String Unit)

/-- How one operation changes the auth token attached to the connection:
`subscribeMiddleware` and `publishInMiddleware` only read the token, and
`authenticateLogin` calls `setAuthToken` (replacing any present token)
exactly when it attaches a new one. -/
def connStep (socketId : String) (token : Option AuthToken) :
    ConnOp → Option AuthToken
  | .login pub proof now maxDrift vr =>
    match (authenticateLogin socketId pub proof now maxDrift vr).newToken with
    | some t => some t
    | none => token
  | .subscribe _ => token
  | .publishIn _ _ _ _ => token

/-- A token is attached by `authAfterDrift` only on the success response. -/
theorem authAfterDrift_token_success (socketId pub embeddedId : String)
    (ts : Option Int) (vr : Except Unit Bool) (t : AuthToken)
    (h : (authAfterDrift socketId pub embeddedId ts vr).newToken = some t) :
    (authAfterDrift socketId pub embeddedId ts vr).response = .success := by
  by_cases hid : embeddedId = "" ∨ embeddedId ≠ socketId
  · simp [authAfterDrift, hid] at h
  · cases vr with
    | error e => simp [authAfterDrift, hid] at h
    | ok b =>
      cases b with
      | false => simp [authAfterDrift, hid] at h
      | true => simp [authAfterDrift, hid]

/-- A token is attached by `authenticateLogin` only on the success
response. -/
theorem login_token_only_on_success (socketId pub : String)
    (proof : Option Proof) (now maxDrift : Int) (vr : Except Unit Bool)
    (t : AuthToken)
    (h : (authenticateLogin socketId pub proof now maxDrift vr).newToken = some t) :
    (authenticateLogin socketId pub proof now maxDrift vr).response = .success := by
  cases proof with
  | none => simp [authenticateLogin] at h
  | some pr =>
    by_cases hpub : pub = ""
    · simp [authenticateLogin, hpub] at h
    · simp only [authenticateLogin, hpub, if_false] at h ⊢
      revert h
      cases hts : jsParseInt ((jsSplitSlash pr.m).get? 1) with
      | none =>
        intro h
        exact authAfterDrift_token_success _ _ _ _ _ t h
      | some tt =>
        intro h
        by_cases hd : |now - tt| > maxDrift
        · simp [hd] at h
        · simp only [hd, if_false] at h ⊢
          exact authAfterDrift_token_success _ _ _ _ _ t h

/-- C9 counterexample: a connection already holding the identity
`{pub := k1, timestamp := 5}` performs a second successful login for the
key `k2`; the attached identity changes, so an attached identity is not
immutable for the rest of the connection lifetime. -/
theorem second_login_replaces_identity_cex :
    connStep "sock" (some ⟨"k1", some 5⟩)
        (.login "k2" (some ⟨"sock/1000", "sig"⟩) 1000 300000 (.ok true)) =
      some ⟨"k2", some 1000⟩ ∧
    some (⟨"k2", some 1000⟩ : AuthToken) ≠ some (⟨"k1", some 5⟩ : AuthToken) := by
  decide

/-- C9 (amended): the identity attached to a connection changes only
through a successful login, which replaces it with the newly authenticated
identity: subscribe and publish operations never change it, and a login
operation that changes it must have answered with success, the new state
being the token that login attached. -/
theorem identity_changes_only_by_successful_login (socketId : String)
    (token : Option AuthToken) :
    (∀ ch, connStep socketId token (.subscribe ch) = token)
    ∧ (∀ ch rd fid ar, connStep socketId token (.publishIn ch rd fid ar) = token)
    ∧ (∀ pub proof now maxDrift vr,
        connStep socketId token (.login pub proof now maxDrift vr) ≠ token →
          (authenticateLogin socketId pub proof now maxDrift vr).response =
            .success
          ∧ connStep socketId token (.login pub proof now maxDrift vr) =
              (authenticateLogin socketId pub proof now maxDrift vr).newToken) := by
  refine ⟨fun ch => rfl, fun ch rd fid ar => rfl, ?_⟩
  intro pub proof now maxDrift vr hne
  cases htk : (authenticateLogin socketId pub proof now maxDrift vr).newToken with
  | none =>
    exfalso
    apply hne
    simp [connStep, htk]
  | some t =>
    constructor
    · exact login_token_only_on_success _ _ _ _ _ _ t htk
    · simp [connStep, htk]

/-- Witness for the C9 amended theorem: a first successful login on a
connection with no identity attaches one, and a subscribe leaves the
token unchanged. -/
theorem identity_change_witness :
    connStep "sock" none
        (.login "k2" (some ⟨"sock/1000", "sig"⟩) 1000 300000 (.ok true)) ≠ none
    ∧ ((authenticateLogin "sock" "k2" (some ⟨"sock/1000", "sig"⟩) 1000 300000
          (.ok true)).response = .success
       ∧ connStep "sock" none
           (.login "k2" (some ⟨"sock/1000", "sig"⟩) 1000 300000 (.ok true)) =
         (authenticateLogin "sock" "k2" (some ⟨"sock/1000", "sig"⟩) 1000 300000
           (.ok true)).newToken)
    ∧ connStep "sock" none (.subscribe "gun/nodes/soulA") = none :=
  ⟨by decide,
   (identity_changes_only_by_successful_login "sock" none).2.2 "k2"
     (some ⟨"sock/1000", "sig"⟩) 1000 300000 (.ok true) (by decide),
   (identity_changes_only_by_successful_login "sock" none).1 "gun/nodes/soulA"⟩

/-- The fixed delay, in milliseconds, that `subscribeMiddleware` waits
before emitting the subscription seed: the `setTimeout` at source lines
230-234, whose own comment says the author is not sure why the delay is
necessary and guesses that without it the emit happens before the
subscription. -/
def seedEmitDelayMs : Nat := 25

/-- When the subscription seed is emitted: the node fetch completes at
some time after `next()` was called, and the emit fires a fixed
`seedEmitDelayMs` later; no signal from the transport that the
subscription has been registered is consulted. -/
def seedEmitTimeMs (fetchCompleteMs : Nat) : Nat :=
  fetchCompleteMs + seedEmitDelayMs

/-- C10 (code bug): the claim requires that the seed fetch-and-emit never
execute before the transport has registered the subscription, but the
source only waits a fixed 25 ms, independent of any registration signal;
the timing model therefore admits an execution in which the seed is
emitted strictly before registration completes. -/
theorem seed_can_fire_before_registration :
    ∃ registrationCompleteMs fetchCompleteMs : Nat,
      seedEmitTimeMs fetchCompleteMs < registrationCompleteMs :=
  ⟨100, 0, by decide⟩

end GunWorker
